import Mathlib

/-!
Verification development for the guided-learning tutoring agent
(`app/agents/core_agent.py` and `app/agents/utility.py`).

The Python source is shallowly embedded: each regex fast-path classifier,
each graph node, each routing function and the turn runner `run_agent` are
translated into executable Lean definitions.  The LLM port is modelled as an
oracle record supplying, for every call site a traversal may reach, the
outcome of that call (a raised transport error, an empty structured result
with no tool call, or the returned fields/text).  `random.choice` is modelled
by an index carried in the oracle.  Strings are ASCII in every input the
agent's patterns are written for; `str.lower`/`str.strip`/`str.split` are
modelled at ASCII fidelity.
-/

namespace TutorAgent

/-- Python `\s` / `str.strip()` / `str.split()` whitespace set
(space, tab, newline, carriage return, vertical tab, form feed). -/
def isPySpace (c : Char) : Bool :=
  c.toNat == 32 || c.toNat == 9 || c.toNat == 10 || c.toNat == 13 ||
  c.toNat == 11 || c.toNat == 12

/-- ASCII `str.lower()` : maps A-Z to a-z, leaves everything else alone. -/
def asciiLower (c : Char) : Char :=
  if 65 ≤ c.toNat ∧ c.toNat ≤ 90 then Char.ofNat (c.toNat + 32) else c

/-- Python `str.strip()` on a list of characters. -/
def pyStrip (s : List Char) : List Char :=
  ((s.dropWhile isPySpace).reverse.dropWhile isPySpace).reverse

/-- Worker for `pyWords`: accumulates the current word (reversed). -/
def pyWordsGo : List Char → List Char → List (List Char)
  | acc, [] => if acc.isEmpty then [] else [acc.reverse]
  | acc, c :: rest =>
    if isPySpace c then
      if acc.isEmpty then pyWordsGo [] rest else acc.reverse :: pyWordsGo [] rest
    else
      pyWordsGo (c :: acc) rest

/-- Python `str.split()` with no argument: words separated by whitespace runs. -/
def pyWords (s : List Char) : List (List Char) :=
  pyWordsGo [] s

/-- The word-character set of Python's `\b` (`[a-zA-Z0-9_]` for ASCII text). -/
def isWordChar (c : Char) : Bool :=
  (97 ≤ c.toNat && c.toNat ≤ 122) || (65 ≤ c.toNat && c.toNat ≤ 90) ||
  (48 ≤ c.toNat && c.toNat ≤ 57) || c.toNat == 95

/-- Regular-expression syntax: the fragment the agent's patterns use
(character classes, concatenation, alternation, star, the `^`/`$` anchors and
the word boundary `\b`).  `+` and `?` are derived forms. -/
inductive Regex where
  | eps
  | cls (p : Char → Bool)
  | seq (a b : Regex)
  | alt (a b : Regex)
  | star (a : Regex)
  | bol
  | eol
  | wordb

/-- Size of a regex, used to compute a sufficient fuel bound. -/
def Regex.size : Regex → Nat
  | .eps => 1
  | .cls _ => 1
  | .seq a b => a.size + b.size + 1
  | .alt a b => a.size + b.size + 1
  | .star a => a.size + 1
  | .bol => 1
  | .eol => 1
  | .wordb => 1

/-- `\b` holds between `prev` (the character before the position) and the next
character exactly when one side is a word character and the other is not. -/
def atWordBoundary (prev : Option Char) (s : List Char) : Bool :=
  let a := match prev with | none => false | some c => isWordChar c
  let b := match s with | [] => false | c :: _ => isWordChar c
  a != b

/-- Fuel-indexed backtracking matcher in continuation-passing style.  `prev`
is the character just before the current position (`none` at the start of the
subject), `s` the rest of the subject, `k` the continuation.  Every recursive
call spends one unit of fuel; since no starred subexpression of the agent's
patterns is nullable, `(size + 2) * (length + 2)` fuel is ample. -/
def matchR : Nat → Regex → Option Char → List Char → (Option Char → List Char → Bool) → Bool
  | 0, _, _, _, _ => false
  | fuel + 1, r, prev, s, k =>
    match r with
    | .eps => k prev s
    | .bol => prev.isNone && k prev s
    | .eol => s.isEmpty && k prev s
    | .wordb => atWordBoundary prev s && k prev s
    | .cls p =>
      match s with
      | [] => false
      | c :: s' => p c && k (some c) s'
    | .seq a b => matchR fuel a prev s fun p' s' => matchR fuel b p' s' k
    | .alt a b => matchR fuel a prev s k || matchR fuel b prev s k
    | .star a => k prev s || matchR fuel a prev s fun p' s' => matchR fuel (.star a) p' s' k

/-- Does `r` match starting exactly at the current position? -/
def matchHere (fuel : Nat) (r : Regex) (prev : Option Char) (s : List Char) : Bool :=
  matchR fuel r prev s fun _ _ => true

/-- Try to match at the current position, then at every later one. -/
def searchFrom (fuel : Nat) (r : Regex) : Option Char → List Char → Bool
  | prev, s =>
    matchHere fuel r prev s ||
      match s with
      | [] => false
      | c :: rest => searchFrom fuel r (some c) rest

/-- Python `re.search(pattern, s) is not None`: a match may begin at any
position of the subject. -/
def research (r : Regex) (s : List Char) : Bool :=
  searchFrom ((r.size + 2) * (s.length + 2)) r none s

/-- A single literal character. -/
def chr (c : Char) : Regex := .cls fun d => d == c

/-- A literal string of ordinary characters. -/
def lit (s : String) : Regex := s.data.foldr (fun c r => .seq (chr c) r) .eps

/-- Concatenation of a list of regexes. -/
def cat (rs : List Regex) : Regex := rs.foldr .seq .eps

/-- Ordered alternation of a list of regexes; the empty list never matches. -/
def alts : List Regex → Regex
  | [] => .cls fun _ => false
  | [r] => r
  | r :: rs => .alt r (alts rs)

/-- `r?` (one or zero occurrences). -/
def opt (r : Regex) : Regex := .alt r .eps

/-- `\s` as a regex. -/
def ws : Regex := .cls isPySpace

/-- `\s+`. -/
def ws1 : Regex := .seq ws (.star ws)

/-- `\s*`. -/
def wss : Regex := .star ws

/-- The apostrophe character (ASCII 39), written by code point. -/
def apos : Char := Char.ofNat 39

/-- `'?` : an optional apostrophe. -/
def aposOpt : Regex := opt (chr apos)

/-- The class `[\s!.]`. -/
def wsBangDot : Regex := .cls fun c => isPySpace c || c == '!' || c == '.'

/-- `SMALL_TALK_PATTERNS` from `core_agent.py`, pattern for pattern. -/
def SMALL_TALK_PATTERNS : List Regex :=
  [ cat [.bol, alts [lit "hi", lit "hello", lit "hey", lit "howdy", lit "sup", lit "yo"], .wordb]
  , cat [.bol, opt (cat [lit "good", ws1]),
      alts [lit "morning", lit "afternoon", lit "evening", lit "night"]]
  , cat [lit "how", ws1, lit "are", ws1, lit "you"]
  , cat [lit "how", aposOpt, opt (chr 's'), ws1, lit "it", ws1, lit "going"]
  , cat [lit "what", aposOpt, opt (chr 's'), ws1, lit "up"]
  , cat [lit "tell", ws1, lit "me", ws1, lit "a", ws1, lit "joke"]
  , cat [.bol, alts [lit "bye", lit "goodbye", cat [lit "see", ws1, lit "you"], lit "later",
      cat [lit "take", ws1, lit "care"]]]
  , cat [.bol, alts [lit "thanks", cat [lit "thank", ws1, lit "you"]]]
  , cat [.bol, lit "i", aposOpt, chr 'm', ws1,
      alts [lit "bored", lit "tired", lit "happy", lit "sad", lit "excited", lit "good",
        lit "fine", lit "great", cat [lit "ok", opt (lit "ay")]]]
  , cat [.bol, alts [lit "haha", lit "lol", lit "lmao"]]
  , cat [.bol, lit "who", ws1, lit "are", ws1, lit "you"]
  , cat [.bol, lit "what", alts [cat [aposOpt, chr 's'], cat [ws1, lit "is"]],
      ws1, lit "your", ws1, lit "name"]
  , cat [.bol, alts [lit "nice", lit "cool", lit "awesome", lit "great", lit "wow"], .eol]
  , cat [.bol, lit "you", aposOpt, chr 'r', opt (chr 'e'), ws1,
      alts [lit "funny", lit "cool", lit "nice", lit "great", lit "awesome"]] ]

/-- `REPEAT_REQUEST_PATTERNS` from `core_agent.py`, pattern for pattern. -/
def REPEAT_REQUEST_PATTERNS : List Regex :=
  [ cat [alts [cat [lit "couldn", aposOpt, chr 't'], cat [lit "can", aposOpt, chr 't'],
      cat [lit "could", ws1, lit "not"], cat [lit "did", ws1, lit "not"],
      cat [lit "didn", aposOpt, chr 't']], ws1,
      alts [lit "hear", lit "understand", lit "catch", lit "get"]]
  , alts [lit "repeat", cat [lit "say", ws1, alts [lit "that", lit "it", lit "this"], ws1, lit "again"]]
  , alts [cat [lit "come", ws1, lit "again"], lit "pardon", cat [lit "once", ws1, lit "more"],
      cat [lit "one", ws1, lit "more", ws1, lit "time"]]
  , cat [lit "what", ws1, alts [lit "did", lit "was"], ws1, lit "you", ws1,
      alts [lit "say", lit "ask"]]
  , cat [alts [lit "say", lit "tell", lit "ask"], ws1, alts [lit "that", lit "it", lit "me"],
      ws1, lit "again"]
  , alts [cat [lit "again", ws1, lit "please"], cat [lit "please", ws1, lit "again"],
      cat [lit "please", ws1, lit "repeat"]]
  , cat [.bol, lit "again", .eol]
  , cat [alts [lit "can", lit "could"], ws1, lit "you", ws1,
      alts [lit "repeat", cat [lit "say", ws1, alts [lit "that", lit "it"], ws1, lit "again"]]]
  , cat [lit "i", ws1, lit "missed", ws1,
      alts [lit "that", lit "it", cat [lit "what", ws1, lit "you", ws1, lit "said"]]]
  , cat [lit "what", ws1, alts [lit "question", cat [lit "did", ws1, lit "you", ws1, lit "ask"]]]
  , cat [alts [lit "speak", lit "talk"], ws1, alts [lit "louder", lit "up"]] ]

/-- `YES_PATTERNS` from `core_agent.py`, pattern for pattern. -/
def YES_PATTERNS : List Regex :=
  [ cat [.bol,
      alts [lit "yes", lit "yeah", lit "yep", lit "yup", lit "sure",
        cat [lit "ok", opt (lit "ay")], lit "absolutely", lit "definitely", lit "please",
        cat [lit "go", ws1, lit "ahead"],
        cat [lit "let", aposOpt, opt (chr 's'), ws1, lit "do", ws1, lit "it"],
        cat [lit "let", aposOpt, opt (chr 's'), ws1, lit "go"],
        cat [lit "sound", opt (chr 's'), ws1, lit "good"],
        cat [lit "why", ws1, lit "not"],
        cat [lit "of", ws1, lit "course"],
        cat [lit "i", aposOpt, opt (chr 'd'), ws1, alts [lit "like", lit "love"], ws1,
          alts [lit "that", lit "to"]]],
      .star wsBangDot, .eol]
  , cat [.bol,
      alts [cat [lit "break", ws1, lit "it", ws1, lit "down"],
        cat [lit "explain", ws1, alts [lit "it", cat [lit "in", ws1, lit "detail"]]],
        cat [lit "teach", ws1, lit "me"],
        cat [lit "tell", ws1, lit "me", ws1, lit "more"],
        cat [lit "go", ws1, lit "ahead"],
        cat [lit "i", ws1, lit "want", ws1, lit "to", ws1, lit "learn"]]] ]

/-- `NO_PATTERNS` from `core_agent.py`, pattern for pattern. -/
def NO_PATTERNS : List Regex :=
  [ cat [.bol,
      alts [lit "no", lit "nah", lit "nope",
        cat [lit "no", opt (chr 't'), ws1, alts [lit "really", lit "now", lit "thanks"]],
        cat [lit "i", aposOpt, opt (chr 'm'), ws1, lit "good"],
        lit "skip",
        cat [lit "never", wss, lit "mind"],
        cat [lit "that", aposOpt, opt (chr 's'), ws1,
          alts [lit "enough", lit "fine", lit "okay", lit "ok"]]],
      .star wsBangDot, .eol]
  , cat [.bol,
      alts [cat [lit "i", ws1, lit "don", aposOpt, chr 't', ws1, alts [lit "want", lit "need"]],
        cat [lit "no", ws1, lit "thank", opt (chr 's')],
        cat [lit "that", aposOpt, opt (chr 's'), ws1, lit "all"]],
      .star wsBangDot, .eol] ]

/-- `query.strip().lower()`, the normalized subject every classifier matches on. -/
def normQuery (q : String) : List Char :=
  (pyStrip q.data).map asciiLower

/-- `is_small_talk` from `core_agent.py`: patterns are consulted only when the
normalized query has at most 10 words; otherwise the function returns false. -/
def is_small_talk (q : String) : Bool :=
  let ql := normQuery q
  if (pyWords ql).length ≤ 10 then SMALL_TALK_PATTERNS.any fun p => research p ql
  else false

/-- `is_repeat_request` from `core_agent.py`: the word cap is 15. -/
def is_repeat_request (q : String) : Bool :=
  let ql := normQuery q
  if (pyWords ql).length ≤ 15 then REPEAT_REQUEST_PATTERNS.any fun p => research p ql
  else false

/-- `is_yes` from `core_agent.py` (no word cap). -/
def is_yes (q : String) : Bool :=
  YES_PATTERNS.any fun p => research p (normQuery q)

/-- `is_no` from `core_agent.py` (no word cap). -/
def is_no (q : String) : Bool :=
  NO_PATTERNS.any fun p => research p (normQuery q)

/-- Worker for `re.split(r'(?<=[.!?])\s+', text)`: walks the text keeping the
current part (reversed) in `acc`.  `prevPunct` records whether the previous
character was `.`, `!` or `?`; a whitespace run preceded by such a character
is a delimiter, consumed while `inDelim` is set (the greedy `\s+`).  A text
ending inside a delimiter yields a trailing empty part, exactly as
`re.split` does. -/
def sentSplitGo : Bool → Bool → List Char → List Char → List (List Char)
  | _, _, [], acc => [acc.reverse]
  | inDelim, prevPunct, c :: rest, acc =>
    if inDelim then
      if isPySpace c then sentSplitGo true false rest acc
      else sentSplitGo false (c == '.' || c == '!' || c == '?') rest [c]
    else if prevPunct && isPySpace c then
      acc.reverse :: sentSplitGo true false rest []
    else
      sentSplitGo false (c == '.' || c == '!' || c == '?') rest (c :: acc)

/-- `re.split(r'(?<=[.!?])\s+', text)`. -/
def reSplitSentences (l : List Char) : List (List Char) :=
  sentSplitGo false false l []

/-- `split_into_sentences` from `app/agents/utility.py`: split the stripped
text at sentence-ending punctuation followed by whitespace, strip each part,
keep the non-empty parts, and fall back to the stripped input when nothing
remains. -/
def split_into_sentences (text : String) : List String :=
  let raw_parts := reSplitSentences (pyStrip text.data)
  let sentences := (raw_parts.map pyStrip).filter fun p => !p.isEmpty
  if sentences.isEmpty then [String.mk (pyStrip text.data)]
  else sentences.map String.mk

-- ========================================
-- Dialog engine state, oracle and nodes
-- ========================================

/-- A `langchain` message: `HumanMessage` or `AIMessage`. -/
inductive Message where
  | human (content : String)
  | ai (content : String)
deriving DecidableEq, Repr

/-- `isinstance(m, HumanMessage)`. -/
def Message.isHuman : Message → Bool
  | .human _ => true
  | .ai _ => false

/-- `isinstance(m, AIMessage)`. -/
def Message.isAi : Message → Bool
  | .human _ => false
  | .ai _ => true

/-- The text of a message. -/
def Message.content : Message → String
  | .human c => c
  | .ai c => c

/-- `AgentState` from `core_agent.py`.  `user` (an opaque identity dict in the
source) is kept as an opaque string; `lesson_step` is a Python `int` that the
engine only ever sets to `0`, `1` or `current + 1`, so `Nat` is faithful. -/
structure AgentState where
  query : String
  user : String
  messages : List Message
  mode : String
  topic : String
  lesson_plan : List String
  lesson_step : Nat
  last_action : String
  session_id : String
  awaiting_lesson_confirmation : Bool
  pending_topic : String
  feedback : String
  last_explanation : String
deriving DecidableEq, Repr

/-- Outcome of one structured LLM call (`invoke` on a tool-bound model):
the transport raised, the model made no tool call, or it returned arguments. -/
inductive LLMResult (α : Type) where
  | raised
  | noToolCall
  | ok (args : α)
deriving DecidableEq

/-- Outcome of one free-form LLM call: the transport raised or text came back. -/
inductive LLMCall where
  | raised
  | ok (text : String)
deriving DecidableEq

/-- Tool-call arguments for `QueryClassificationSchema`; each field is
optional because the node reads them with `dict.get` and a default. -/
structure QueryClassificationArgs where
  query_type : Option String
  topic : Option String
deriving DecidableEq

/-- Tool-call arguments for `LessonPlanSchema`. -/
structure LessonPlanArgs where
  topic : Option String
  steps : Option (List String)
deriving DecidableEq

/-- Tool-call arguments for `EvaluationSchema` (`understanding_level` is
telemetry the engine never reads). -/
structure EvaluationArgs where
  is_correct : Option Bool
  feedback : Option String
deriving DecidableEq

/-- Tool-call arguments for `TopicAnalysisSchema` (`is_related` and
`confidence` are never read by the engine). -/
structure TopicAnalysisArgs where
  intent : Option String
  suggested_action : Option String
deriving DecidableEq

/-- The LLM port for one turn: one field per call site a traversal may reach
(each node runs at most once per turn), plus the index `rand` modelling
`random.choice` over the acknowledgement-phrase lists. -/
structure Oracle where
  classifyRes : LLMResult QueryClassificationArgs
  generalRes : LLMCall
  briefRes : LLMCall
  planRes : LLMResult LessonPlanArgs
  explainRes : LLMCall
  evalRes : LLMResult EvaluationArgs
  topicRes : LLMResult TopicAnalysisArgs
  clarifyRes : LLMCall
  smallTalkRes : LLMCall
  completeRes : LLMCall
  rand : Nat
deriving DecidableEq

/-- `MAX_STEPS` from `core_agent.py`. -/
def MAX_STEPS : Nat := 5

/-- `random.choice(ps)` modelled by the oracle's index reduced mod the list
length (total on the fixed non-empty phrase lists the source uses). -/
def pick (r : Nat) (ps : List String) : String :=
  ps.getD (r % ps.length) ""

/-- `handle_small_talk` from `core_agent.py`: one free-form LLM call on the
small-talk prompt, no state touched; a transport error propagates to the
caller (the function has no fallback of its own). -/
def handle_small_talk (o : Oracle) (_query : String) : LLMCall :=
  o.smallTalkRes

/-- Node `classify_query`: labels the query `general`/`explanation` via the
classifier tool; on a raised error or a missing tool call it defaults to
`classified_general` with `pending_topic = query`. -/
def classify_query (o : Oracle) (st : AgentState) : AgentState :=
  match o.classifyRes with
  | .ok args =>
    let query_type := args.query_type.getD "general"
    let topic := args.topic.getD st.query
    { st with last_action := "classified_" ++ query_type, pending_topic := topic }
  | .noToolCall => { st with last_action := "classified_general", pending_topic := st.query }
  | .raised => { st with last_action := "classified_general", pending_topic := st.query }

/-- Node `general_answer`: one free-form answer, generic message on error. -/
def general_answer (o : Oracle) (st : AgentState) : AgentState :=
  match o.generalRes with
  | .ok t =>
    { st with messages := st.messages ++ [.ai t],
              last_action := "general_answered", mode := "general" }
  | .raised =>
    { st with
        messages := st.messages ++
          [.ai "That's a great question! Let me know if you'd like me to explain further."],
        last_action := "general_answered", mode := "general" }

/-- Node `brief_answer_and_offer`: short answer plus a lesson offer; sets
`awaiting_lesson_confirmation` and retains `pending_topic` on both branches. -/
def brief_answer_and_offer (o : Oracle) (st : AgentState) : AgentState :=
  let topic := st.pending_topic
  match o.briefRes with
  | .ok t =>
    { st with messages := st.messages ++ [.ai t], last_action := "offered_lesson",
              awaiting_lesson_confirmation := true, pending_topic := topic,
              mode := "general" }
  | .raised =>
    { st with
        messages := st.messages ++
          [.ai "That's an interesting topic! Would you like me to break it down step by step?"],
        last_action := "offered_lesson", awaiting_lesson_confirmation := true,
        pending_topic := topic, mode := "general" }

/-- Node `handle_lesson_confirmation`: pure regex fast-path yes/no resolution
of the lesson offer, no model call. -/
def handle_lesson_confirmation (st : AgentState) : AgentState :=
  if is_yes st.query then
    { st with last_action := "confirmed_lesson",
              awaiting_lesson_confirmation := false, mode := "explanation" }
  else if is_no st.query then
    { st with
        messages := st.messages ++
          [.ai "No problem at all! Feel free to ask me anything else whenever you are ready."],
        last_action := "declined_lesson", awaiting_lesson_confirmation := false,
        pending_topic := "", mode := "general" }
  else
    { st with last_action := "ambiguous_confirmation",
              awaiting_lesson_confirmation := false, pending_topic := "",
              mode := "general" }

/-- Node `plan_lesson`: structured lesson plan for `pending_topic`.  The
success branch pads a short plan to 3 entries and truncates to `MAX_STEPS`;
the no-tool-call fallback builds a fixed 3-entry plan; the raised-error
fallback builds a single-entry plan and (unlike the other branches) does not
clear `pending_topic`. -/
def plan_lesson (o : Oracle) (st : AgentState) : AgentState :=
  let topic := st.pending_topic
  match o.planRes with
  | .ok args =>
    let refined_topic := args.topic.getD topic
    let steps0 := args.steps.getD []
    let steps1 :=
      if steps0.length < 3 then
        steps0 ++ List.replicate (3 - steps0.length) ("Additional aspect of " ++ refined_topic)
      else steps0
    let steps := steps1.take MAX_STEPS
    { st with topic := refined_topic, lesson_plan := steps, lesson_step := 1,
              last_action := "planned",
              messages := st.messages ++
                [.ai ("Great, I have planned a lesson on " ++ refined_topic ++ " with " ++
                  toString steps.length ++ " sub-topics. Let us dive in!")],
              mode := "explanation", pending_topic := "" }
  | .noToolCall =>
    { st with topic := topic,
              lesson_plan := ["Introduction to " ++ topic, "Key concepts of " ++ topic,
                "Practical applications of " ++ topic],
              lesson_step := 1, last_action := "planned",
              messages := st.messages ++ [.ai ("Let us explore " ++ topic ++ " together!")],
              mode := "explanation", pending_topic := "" }
  | .raised =>
    { st with topic := topic, lesson_plan := ["Understanding " ++ topic],
              lesson_step := 1, last_action := "planned",
              messages := st.messages ++ [.ai ("Let us learn about " ++ topic ++ "!")],
              mode := "explanation" }

/-- Node `generate_explanation`: explains the current sub-topic.  On success
the staged `feedback` is prepended and cleared and `last_explanation` is set;
the error fallback appends a generic message and touches neither `feedback`
nor `last_explanation`. -/
def generate_explanation (o : Oracle) (st : AgentState) : AgentState :=
  match o.explainRes with
  | .ok t =>
    let final_content := if st.feedback == "" then t else st.feedback ++ "\n\n" ++ t
    { st with messages := st.messages ++ [.ai final_content],
              last_action := "explained", feedback := "",
              last_explanation := final_content }
  | .raised =>
    { st with
        messages := st.messages ++
          [.ai ("Let me tell you about this part of " ++ st.topic ++ ". What do you think?")],
        last_action := "explained" }

/-- Node `evaluate_response`: grades the latest user message.  With no user
message it only sets `last_action`; otherwise every branch — graded result,
missing tool call, raised error — advances `lesson_step` by one and sets
`last_action = "proceed"` (the success branch additionally stages feedback). -/
def evaluate_response (o : Oracle) (st : AgentState) : AgentState :=
  let user_messages := st.messages.filter Message.isHuman
  if user_messages.isEmpty then { st with last_action := "proceed" }
  else
    match o.evalRes with
    | .ok args =>
      { st with lesson_step := st.lesson_step + 1, last_action := "proceed",
                feedback := args.feedback.getD "" }
    | .noToolCall => { st with lesson_step := st.lesson_step + 1, last_action := "proceed" }
    | .raised => { st with lesson_step := st.lesson_step + 1, last_action := "proceed" }

/-- The acknowledgement phrases of the fast-path repeat branch of
`analyze_topic_context`. -/
def repeatAcksFast : List String :=
  ["Sure, let me repeat that. ", "No problem, here it is again. ",
   "Of course, I will say it again. "]

/-- The acknowledgement phrases of the LLM-detected repeat branch. -/
def repeatAcksLLM : List String :=
  ["Sure, let me repeat. ", "No problem. ", "Of course. "]

/-- The `switch_topic` branch of `analyze_topic_context`: the user exits the
lesson; append a progress summary and reset the lesson-scoped state. -/
def analyze_switch_topic (st : AgentState) : AgentState :=
  { st with
      messages := st.messages ++
        [.ai ("Sure thing! We covered " ++ toString ((st.lesson_step : Int) - 1) ++
          " out of " ++ toString st.lesson_plan.length ++ " sub-topics on " ++
          st.topic ++ ". What would you like to know about?")],
      last_action := "exited_lesson", mode := "general", topic := "",
      lesson_plan := [], lesson_step := 0, last_explanation := "", feedback := "" }

/-- The `answer_and_continue` branch: one extra free-form call answers the
clarification; if that call raises, the node's handler catches it and falls
back to `context_analyzed`. -/
def analyze_answer_and_continue (o : Oracle) (st : AgentState) : AgentState :=
  match o.clarifyRes with
  | .ok t => { st with messages := st.messages ++ [.ai t], last_action := "answered_question" }
  | .raised => { st with last_action := "context_analyzed" }

/-- The `politely_redirect` branch. -/
def analyze_redirect (st : AgentState) : AgentState :=
  { st with
      messages := st.messages ++
        [.ai ("Interesting question! Let us finish our lesson on " ++ st.topic ++
          " first though. We are on sub-topic " ++ toString st.lesson_step ++ " of " ++
          toString st.lesson_plan.length ++ ". Once done, I can help with anything else!")],
      last_action := "redirected" }

/-- The `handle_small_talk` branch: a nested `handle_small_talk` call whose
error is caught by the node's handler (falling back to `context_analyzed`). -/
def analyze_small_talk (o : Oracle) (st : AgentState) (latest_user_query : String) :
    AgentState :=
  match handle_small_talk o latest_user_query with
  | .ok t =>
    { st with
        messages := st.messages ++
          [.ai (t ++ " Anyway, we are on sub-topic " ++ toString st.lesson_step ++
            " of " ++ toString st.lesson_plan.length ++ " in our " ++ st.topic ++
            " lesson. Ready to continue?")],
        last_action := "small_talk_responded" }
  | .raised => { st with last_action := "context_analyzed" }

/-- The `repeat_last_message` branch (LLM-detected repeat). -/
def analyze_repeat_llm (o : Oracle) (st : AgentState) (last_agent_message : String) :
    AgentState :=
  if last_agent_message == "" then
    { st with messages := st.messages ++ [.ai "Let us continue with our lesson!"],
              last_action := "repeated" }
  else
    { st with
        messages := st.messages ++ [.ai (pick o.rand repeatAcksLLM ++ last_agent_message)],
        last_action := "repeated" }

/-- The `suggested_action` dispatch of `analyze_topic_context` (the body of
its `try` block after a successful tool call). -/
def analyze_on_action (o : Oracle) (st : AgentState)
    (latest_user_query last_agent_message : String) (args : TopicAnalysisArgs) : AgentState :=
  let suggested_action := args.suggested_action.getD "continue_lesson"
  if suggested_action == "switch_topic" then analyze_switch_topic st
  else if suggested_action == "answer_and_continue" then analyze_answer_and_continue o st
  else if suggested_action == "politely_redirect" then analyze_redirect st
  else if suggested_action == "handle_small_talk" then analyze_small_talk o st latest_user_query
  else if suggested_action == "repeat_last_message" then
    analyze_repeat_llm o st last_agent_message
  else { st with last_action := "context_analyzed" }

/-- The repeat fast path of `analyze_topic_context`: replays
`last_agent_message` behind a random acknowledgement, no model call. -/
def analyze_repeat_fast (o : Oracle) (st : AgentState) (last_agent_message : String) :
    AgentState :=
  if last_agent_message == "" then
    { st with
        messages := st.messages ++ [.ai "I do not have anything to repeat yet. Let us continue!"],
        last_action := "repeated" }
  else
    { st with
        messages := st.messages ++ [.ai (pick o.rand repeatAcksFast ++ last_agent_message)],
        last_action := "repeated" }

/-- Node `analyze_topic_context`: mid-lesson intent analysis.  The repeat
fast path replays `last_explanation` without consulting the model; otherwise
the topic-analysis tool picks one of six actions, and any raised error
(including one from the nested clarification or small-talk call) is caught
and treated as `context_analyzed`. -/
def analyze_topic_context (o : Oracle) (st : AgentState) : AgentState :=
  let user_messages := st.messages.filter Message.isHuman
  let ai_messages := st.messages.filter Message.isAi
  if user_messages.isEmpty || st.topic == "" then
    { st with last_action := "context_analyzed" }
  else if (st.messages.getLast?.map Message.isAi).getD false then
    { st with last_action := "waiting_for_response" }
  else
    let latest_user_query := ((user_messages.getLast?).map Message.content).getD ""
    let last_agent_message :=
      if st.last_explanation == "" then
        ((ai_messages.getLast?).map Message.content).getD ""
      else st.last_explanation
    if is_repeat_request latest_user_query then
      analyze_repeat_fast o st last_agent_message
    else
      match o.topicRes with
      | .ok args => analyze_on_action o st latest_user_query last_agent_message args
      | .noToolCall => { st with last_action := "context_analyzed" }
      | .raised => { st with last_action := "context_analyzed" }

/-- Node `complete_lesson`: wrap-up when all sub-topics are covered.  The
success branch resets every lesson-scoped field; the raised-error fallback
resets `mode`, `topic`, `lesson_plan` and `lesson_step` but leaves
`feedback`, `last_explanation` and `pending_topic` untouched (as the source
does). -/
def complete_lesson (o : Oracle) (st : AgentState) : AgentState :=
  match o.completeRes with
  | .ok t =>
    let completion_content := if st.feedback == "" then t else st.feedback ++ "\n\n" ++ t
    { st with messages := st.messages ++ [.ai completion_content],
              last_action := "lesson_completed", mode := "general", topic := "",
              lesson_plan := [], lesson_step := 0, last_explanation := "",
              feedback := "", pending_topic := "" }
  | .raised =>
    { st with
        messages := st.messages ++
          [.ai ("Great work completing the lesson on " ++ st.topic ++
            "! Feel free to ask me anything.")],
        last_action := "lesson_completed", mode := "general", topic := "",
        lesson_plan := [], lesson_step := 0 }

-- ========================================
-- Routing functions and the graph traversal
-- ========================================

/-- `route_start`: entry router of the graph. -/
def route_start (st : AgentState) : String :=
  if st.awaiting_lesson_confirmation then "handle_lesson_confirmation"
  else if st.mode == "explanation" && st.topic != "" && !st.lesson_plan.isEmpty then
    "analyze_topic"
  else "classify_query"

/-- `route_after_classification`. -/
def route_after_classification (st : AgentState) : String :=
  if st.last_action == "classified_explanation" then "brief_answer_and_offer"
  else "general_answer"

/-- `route_after_confirmation`. -/
def route_after_confirmation (st : AgentState) : String :=
  if st.last_action == "confirmed_lesson" then "plan_lesson"
  else if st.last_action == "ambiguous_confirmation" then "classify_query"
  else "end"

/-- `route_after_topic_analysis` (its `Literal` return type also lists
`plan_lesson`, but the body never returns it). -/
def route_after_topic_analysis (st : AgentState) : String :=
  if st.last_action == "context_analyzed" then "evaluate_response"
  else if st.last_action == "exited_lesson" then "classify_query"
  else "end"

/-- `route_after_evaluation`: lesson done exactly when `lesson_step` exceeds
the plan length. -/
def route_after_evaluation (st : AgentState) : String :=
  if st.lesson_plan.length < st.lesson_step then "complete_lesson"
  else "generate_explanation"

/-- The `classify_query → {general_answer | brief_answer_and_offer} → END`
sub-traversal of the compiled graph. -/
def run_from_classify (o : Oracle) (st : AgentState) : AgentState :=
  let st1 := classify_query o st
  if route_after_classification st1 == "brief_answer_and_offer" then
    brief_answer_and_offer o st1
  else general_answer o st1

/-- One full traversal of the compiled graph (`build_agent`'s node/edge
table): from the entry router through conditional edges to a terminal node. -/
def graph_invoke (o : Oracle) (st : AgentState) : AgentState :=
  if route_start st == "handle_lesson_confirmation" then
    let st1 := handle_lesson_confirmation st
    if route_after_confirmation st1 == "plan_lesson" then
      generate_explanation o (plan_lesson o st1)
    else if route_after_confirmation st1 == "classify_query" then
      run_from_classify o st1
    else st1
  else if route_start st == "analyze_topic" then
    let st1 := analyze_topic_context o st
    if route_after_topic_analysis st1 == "evaluate_response" then
      let st2 := evaluate_response o st1
      if route_after_evaluation st2 == "complete_lesson" then complete_lesson o st2
      else generate_explanation o st2
    else if route_after_topic_analysis st1 == "classify_query" then
      run_from_classify o st1
    else st1
  else run_from_classify o st

-- ========================================
-- Turn runner
-- ========================================

/-- The fresh-session input state `run_agent` builds (all defaults,
`mode = "general"`, the new utterance as the only message). -/
def initial_input (user query session_id : String) : AgentState :=
  { query := query, user := user, messages := [.human query], mode := "general",
    topic := "", lesson_plan := [], lesson_step := 0, last_action := "initial",
    session_id := session_id, awaiting_lesson_confirmation := false,
    pending_topic := "", feedback := "", last_explanation := "" }

/-- Outcome of one `run_agent` call: the returned response text together with
the state the turn persisted, or `raised` when the function re-raises an
exception to its caller. -/
inductive RunResult where
  | raised
  | ok (response : String) (stored : Option AgentState)
deriving DecidableEq

/-- `run_agent` from `core_agent.py`.  `stored` is the checkpointed state of
the session (`none` on first contact).  Returns the response text and the
state persisted by the traversal; `RunResult.raised` models the function
re-raising (only the small-talk fast path can raise here, since every graph
node catches its own model errors).  The `messages` channel is append-only
(`operator.add`), so even the re-initialization branch keeps prior history
while resetting every other field. -/
def run_agent (user query session_id : String) (stored : Option AgentState)
    (o : Oracle) : RunResult :=
  let has_state := stored.isSome
  let has_active_lesson := match stored with
    | some st => st.topic != ""
    | none => false
  let is_awaiting := match stored with
    | some st => st.awaiting_lesson_confirmation
    | none => false
  if !has_active_lesson && !is_awaiting && is_small_talk query then
    match handle_small_talk o query with
    | .ok t => .ok t stored
    | .raised => .raised
  else
    let input_state :=
      if has_state && (has_active_lesson || is_awaiting) then
        match stored with
        | some st => { st with messages := st.messages ++ [.human query],
                               query := query, user := user }
        | none => initial_input user query session_id
      else
        let prior := match stored with
          | some st => st.messages
          | none => []
        { initial_input user query session_id with messages := prior ++ [.human query] }
    let result_state := graph_invoke o input_state
    let ai_messages := result_state.messages.filter Message.isAi
    let response := ((ai_messages.getLast?).map Message.content).getD
      "I'm here to help you learn!"
    .ok response (some result_state)

/-- The session states the persisted store can hold: nothing at first
contact, then whatever each successful `run_agent` turn saves. -/
inductive StoreReach : Option AgentState → Prop where
  | init : StoreReach none
  | step (user query session_id : String) (o : Oracle) (stored : Option AgentState)
      (resp : String) (stored' : Option AgentState) :
      StoreReach stored →
      run_agent user query session_id stored o = .ok resp stored' →
      StoreReach stored'

/-- The invariant maintained by every persisted session state: the cursor
never passes the end of the plan, and the plan never exceeds `MAX_STEPS`
entries. -/
def StepInv (st : AgentState) : Prop :=
  st.lesson_step ≤ st.lesson_plan.length ∧ st.lesson_plan.length ≤ 5

-- ========================================
-- Concrete oracles and states for witnesses and counterexamples
-- ========================================

/-- An oracle whose every LLM call fails (baseline for concrete runs). -/
def oAllRaised : Oracle :=
  { classifyRes := .raised, generalRes := .raised, briefRes := .raised,
    planRes := .raised, explainRes := .raised, evalRes := .raised,
    topicRes := .raised, clarifyRes := .raised, smallTalkRes := .raised,
    completeRes := .raised, rand := 0 }

/-- Oracle for a turn classified `general` and answered "Paris.". -/
def oClassifyGeneral : Oracle :=
  { oAllRaised with classifyRes := .ok ⟨some "general", some "France"⟩,
                    generalRes := .ok "Paris." }

/-- The state one `general` turn from a fresh session persists. -/
def stGeneralTurn : AgentState :=
  { query := "What is the capital of France?", user := "u",
    messages := [.human "What is the capital of France?", .ai "Paris."],
    mode := "general", topic := "", lesson_plan := [], lesson_step := 0,
    last_action := "general_answered", session_id := "s",
    awaiting_lesson_confirmation := false, pending_topic := "France",
    feedback := "", last_explanation := "" }

/-- Oracle for a turn classified `explanation` with a brief answer + offer. -/
def oOfferTurn : Oracle :=
  { oAllRaised with classifyRes := .ok ⟨some "explanation", some "photosynthesis"⟩,
                    briefRes := .ok "In short, plants make food from light. Want a full lesson?" }

/-- The state persisted after the offer turn (`awaiting_lesson_confirmation`). -/
def stOfferTurn : AgentState :=
  { query := "How does photosynthesis work?", user := "u",
    messages := [.human "How does photosynthesis work?",
                 .ai "In short, plants make food from light. Want a full lesson?"],
    mode := "general", topic := "", lesson_plan := [], lesson_step := 0,
    last_action := "offered_lesson", session_id := "s",
    awaiting_lesson_confirmation := true, pending_topic := "photosynthesis",
    feedback := "", last_explanation := "" }

/-- Oracle for the confirmation turn on which `plan_lesson`'s LLM call raises
and `generate_explanation`'s succeeds. -/
def oPlanFailTurn : Oracle :=
  { oAllRaised with explainRes := .ok "Plants turn light into food. What do you think?" }

/-- The state persisted after "yes" with a raised `plan_lesson` call: an
active lesson whose plan has a single entry. -/
def stPlanFailTurn : AgentState :=
  { query := "yes", user := "u",
    messages := [.human "How does photosynthesis work?",
                 .ai "In short, plants make food from light. Want a full lesson?",
                 .human "yes",
                 .ai "Let us learn about photosynthesis!",
                 .ai "Plants turn light into food. What do you think?"],
    mode := "explanation", topic := "photosynthesis",
    lesson_plan := ["Understanding photosynthesis"], lesson_step := 1,
    last_action := "explained", session_id := "s",
    awaiting_lesson_confirmation := false, pending_topic := "photosynthesis",
    feedback := "", last_explanation := "Plants turn light into food. What do you think?" }

/-- Oracle for the final answer turn: evaluation succeeds and stages
feedback, and `complete_lesson`'s LLM call raises. -/
def oCompleteFailTurn : Oracle :=
  { oAllRaised with evalRes := .ok ⟨some false, some "Good try!"⟩,
                    topicRes := .ok ⟨some "answer", some "continue_lesson"⟩ }

/-- The state persisted after the lesson completes through the raised-error
branch of `complete_lesson`: no active lesson, yet `feedback` and
`last_explanation` still hold the previous lesson's values. -/
def stCompleteFailTurn : AgentState :=
  { query := "An answer about plants.", user := "u",
    messages := [.human "How does photosynthesis work?",
                 .ai "In short, plants make food from light. Want a full lesson?",
                 .human "yes",
                 .ai "Let us learn about photosynthesis!",
                 .ai "Plants turn light into food. What do you think?",
                 .human "An answer about plants.",
                 .ai "Great work completing the lesson on photosynthesis! Feel free to ask me anything."],
    mode := "general", topic := "", lesson_plan := [], lesson_step := 0,
    last_action := "lesson_completed", session_id := "s",
    awaiting_lesson_confirmation := false, pending_topic := "photosynthesis",
    feedback := "Good try!",
    last_explanation := "Plants turn light into food. What do you think?" }

/-- A fresh-session state holding one user message (witness input). -/
def stOneUserMsg : AgentState := initial_input "u" "hi" "s"

/-- A mid-lesson state (`lesson_step = 2`, plan length 4) with a stored
explanation, matching the spec's scenario C. -/
def stMidLesson : AgentState :=
  { query := "tides", user := "u",
    messages := [.human "explain gravity", .ai "Gravity pulls objects together. Why do tides happen?"],
    mode := "explanation", topic := "gravity",
    lesson_plan := ["What gravity is", "Mass and distance", "Tides", "Orbits"],
    lesson_step := 2, last_action := "explained", session_id := "s",
    awaiting_lesson_confirmation := false, pending_topic := "",
    feedback := "", last_explanation := "Gravity pulls objects together. Why do tides happen?" }

/-- An oracle differing from `oAllRaised` in every LLM answer but agreeing on
`rand` (used to show the repeat fast path consults no model). -/
def oOtherLLM : Oracle :=
  { classifyRes := .ok ⟨some "general", some "x"⟩, generalRes := .ok "a",
    briefRes := .ok "b", planRes := .ok ⟨some "y", some ["s1", "s2", "s3"]⟩,
    explainRes := .ok "c", evalRes := .ok ⟨some true, some "d"⟩,
    topicRes := .ok ⟨some "answer", some "continue_lesson"⟩, clarifyRes := .ok "e",
    smallTalkRes := .ok "f", completeRes := .ok "g", rand := 0 }

/-- An oracle whose only successful call is the small-talk one. -/
def oSmallOk : Oracle :=
  { oAllRaised with smallTalkRes := .ok "Hi there!" }

-- ========================================
-- Helper lemmas: per-node frame facts
-- ========================================

theorem classify_query_fields (o : Oracle) (st : AgentState) :
    (classify_query o st).lesson_plan = st.lesson_plan ∧
    (classify_query o st).lesson_step = st.lesson_step := by
  unfold classify_query
  cases o.classifyRes <;> exact ⟨rfl, rfl⟩

theorem general_answer_fields (o : Oracle) (st : AgentState) :
    (general_answer o st).lesson_plan = st.lesson_plan ∧
    (general_answer o st).lesson_step = st.lesson_step := by
  unfold general_answer
  cases o.generalRes <;> exact ⟨rfl, rfl⟩

theorem brief_answer_and_offer_fields (o : Oracle) (st : AgentState) :
    (brief_answer_and_offer o st).lesson_plan = st.lesson_plan ∧
    (brief_answer_and_offer o st).lesson_step = st.lesson_step := by
  unfold brief_answer_and_offer
  cases o.briefRes <;> exact ⟨rfl, rfl⟩

theorem handle_lesson_confirmation_fields (st : AgentState) :
    (handle_lesson_confirmation st).lesson_plan = st.lesson_plan ∧
    (handle_lesson_confirmation st).lesson_step = st.lesson_step := by
  unfold handle_lesson_confirmation
  split_ifs <;> exact ⟨rfl, rfl⟩

theorem generate_explanation_fields (o : Oracle) (st : AgentState) :
    (generate_explanation o st).lesson_plan = st.lesson_plan ∧
    (generate_explanation o st).lesson_step = st.lesson_step := by
  unfold generate_explanation
  cases o.explainRes <;> exact ⟨rfl, rfl⟩

theorem run_from_classify_fields (o : Oracle) (st : AgentState) :
    (run_from_classify o st).lesson_plan = st.lesson_plan ∧
    (run_from_classify o st).lesson_step = st.lesson_step := by
  unfold run_from_classify
  dsimp only
  obtain ⟨h1, h2⟩ := classify_query_fields o st
  split
  · obtain ⟨g1, g2⟩ := brief_answer_and_offer_fields o (classify_query o st)
    exact ⟨g1.trans h1, g2.trans h2⟩
  · obtain ⟨g1, g2⟩ := general_answer_fields o (classify_query o st)
    exact ⟨g1.trans h1, g2.trans h2⟩

theorem plan_lesson_fields (o : Oracle) (st : AgentState) :
    (plan_lesson o st).lesson_step = 1 ∧
    1 ≤ (plan_lesson o st).lesson_plan.length ∧
    (plan_lesson o st).lesson_plan.length ≤ 5 := by
  unfold plan_lesson
  cases o.planRes with
  | raised => exact ⟨rfl, by simp, by simp⟩
  | noToolCall => exact ⟨rfl, by simp, by simp⟩
  | ok args =>
    refine ⟨rfl, ?_, ?_⟩ <;>
    · simp only [MAX_STEPS, List.length_take]
      split <;> simp <;> omega

theorem evaluate_response_fields (o : Oracle) (st : AgentState) :
    (evaluate_response o st).lesson_plan = st.lesson_plan ∧
    ((evaluate_response o st).lesson_step = st.lesson_step ∨
     (evaluate_response o st).lesson_step = st.lesson_step + 1) := by
  unfold evaluate_response
  dsimp only
  split
  · exact ⟨rfl, Or.inl rfl⟩
  · cases o.evalRes <;> exact ⟨rfl, Or.inr rfl⟩

theorem complete_lesson_fields (o : Oracle) (st : AgentState) :
    (complete_lesson o st).lesson_plan = [] ∧
    (complete_lesson o st).lesson_step = 0 ∧
    (complete_lesson o st).mode = "general" := by
  unfold complete_lesson
  cases o.completeRes <;> exact ⟨rfl, rfl, rfl⟩

theorem analyze_switch_topic_fields (st : AgentState) :
    (analyze_switch_topic st).lesson_plan = [] ∧ (analyze_switch_topic st).lesson_step = 0 :=
  ⟨rfl, rfl⟩

theorem analyze_answer_and_continue_fields (o : Oracle) (st : AgentState) :
    (analyze_answer_and_continue o st).lesson_plan = st.lesson_plan ∧
    (analyze_answer_and_continue o st).lesson_step = st.lesson_step := by
  unfold analyze_answer_and_continue
  cases o.clarifyRes <;> exact ⟨rfl, rfl⟩

theorem analyze_small_talk_fields (o : Oracle) (st : AgentState) (latest : String) :
    (analyze_small_talk o st latest).lesson_plan = st.lesson_plan ∧
    (analyze_small_talk o st latest).lesson_step = st.lesson_step := by
  unfold analyze_small_talk
  cases handle_small_talk o latest <;> exact ⟨rfl, rfl⟩

theorem analyze_repeat_llm_fields (o : Oracle) (st : AgentState) (lam : String) :
    (analyze_repeat_llm o st lam).lesson_plan = st.lesson_plan ∧
    (analyze_repeat_llm o st lam).lesson_step = st.lesson_step := by
  unfold analyze_repeat_llm
  split <;> exact ⟨rfl, rfl⟩

theorem analyze_repeat_fast_fields (o : Oracle) (st : AgentState) (lam : String) :
    (analyze_repeat_fast o st lam).lesson_plan = st.lesson_plan ∧
    (analyze_repeat_fast o st lam).lesson_step = st.lesson_step := by
  unfold analyze_repeat_fast
  split <;> exact ⟨rfl, rfl⟩

theorem analyze_on_action_fields (o : Oracle) (st : AgentState)
    (latest lam : String) (args : TopicAnalysisArgs) :
    ((analyze_on_action o st latest lam args).lesson_plan = st.lesson_plan ∧
     (analyze_on_action o st latest lam args).lesson_step = st.lesson_step) ∨
    ((analyze_on_action o st latest lam args).lesson_plan = [] ∧
     (analyze_on_action o st latest lam args).lesson_step = 0) := by
  unfold analyze_on_action
  dsimp only
  split
  · exact Or.inr (analyze_switch_topic_fields st)
  · split
    · exact Or.inl (analyze_answer_and_continue_fields o st)
    · split
      · exact Or.inl ⟨rfl, rfl⟩
      · split
        · exact Or.inl (analyze_small_talk_fields o st latest)
        · split
          · exact Or.inl (analyze_repeat_llm_fields o st lam)
          · exact Or.inl ⟨rfl, rfl⟩

theorem analyze_topic_context_fields (o : Oracle) (st : AgentState) :
    ((analyze_topic_context o st).lesson_plan = st.lesson_plan ∧
     (analyze_topic_context o st).lesson_step = st.lesson_step) ∨
    ((analyze_topic_context o st).lesson_plan = [] ∧
     (analyze_topic_context o st).lesson_step = 0) := by
  unfold analyze_topic_context
  dsimp only
  split
  · exact Or.inl ⟨rfl, rfl⟩
  · split
    · exact Or.inl ⟨rfl, rfl⟩
    · split
      · exact Or.inl (analyze_repeat_fast_fields o st _)
      · split
        · exact analyze_on_action_fields o st _ _ _
        · exact Or.inl ⟨rfl, rfl⟩
        · exact Or.inl ⟨rfl, rfl⟩

theorem route_after_evaluation_not_complete {st : AgentState}
    (h : (route_after_evaluation st == "complete_lesson") = false) :
    st.lesson_step ≤ st.lesson_plan.length := by
  unfold route_after_evaluation at h
  split at h
  · simp at h
  · omega

-- ========================================
-- Helper lemmas: the invariant on reachable stores
-- ========================================

theorem graph_invoke_inv (o : Oracle) (st : AgentState) (h : StepInv st) :
    StepInv (graph_invoke o st) := by
  obtain ⟨h1, h2⟩ := h
  unfold graph_invoke
  dsimp only
  split
  · obtain ⟨c1, c2⟩ := handle_lesson_confirmation_fields st
    split
    · obtain ⟨g1, g2⟩ := generate_explanation_fields o (plan_lesson o (handle_lesson_confirmation st))
      obtain ⟨p1, p2, p3⟩ := plan_lesson_fields o (handle_lesson_confirmation st)
      exact ⟨by rw [g2, g1, p1]; omega, by rw [g1]; omega⟩
    · split
      · obtain ⟨r1, r2⟩ := run_from_classify_fields o (handle_lesson_confirmation st)
        exact ⟨by rw [r2, r1, c1, c2]; omega, by rw [r1, c1]; omega⟩
      · exact ⟨by rw [c2, c1]; omega, by rw [c1]; omega⟩
  · split
    · rcases analyze_topic_context_fields o st with ⟨a1, a2⟩ | ⟨a1, a2⟩ <;>
      · split
        · obtain ⟨e1, e2⟩ := evaluate_response_fields o (analyze_topic_context o st)
          split
          · obtain ⟨k1, k2, _⟩ :=
              complete_lesson_fields o (evaluate_response o (analyze_topic_context o st))
            exact ⟨by rw [k2]; exact Nat.zero_le _, by rw [k1]; decide⟩
          · rename_i hroute
            have hle := route_after_evaluation_not_complete (by simpa using hroute)
            obtain ⟨g1, g2⟩ :=
              generate_explanation_fields o (evaluate_response o (analyze_topic_context o st))
            exact ⟨by rw [g2, g1]; omega,
                   by rw [g1, e1, a1]; first | omega | decide⟩
        · split
          · obtain ⟨r1, r2⟩ := run_from_classify_fields o (analyze_topic_context o st)
            exact ⟨by rw [r2, r1, a1, a2]; first | omega | decide,
                   by rw [r1, a1]; first | omega | decide⟩
          · exact ⟨by rw [a2, a1]; first | omega | decide,
                   by rw [a1]; first | omega | decide⟩
    · obtain ⟨r1, r2⟩ := run_from_classify_fields o st
      exact ⟨by rw [r2, r1]; omega, by rw [r1]; omega⟩

theorem run_agent_inv (user query session_id : String) (stored : Option AgentState)
    (o : Oracle) (resp : String) (st' : AgentState)
    (hrun : run_agent user query session_id stored o = .ok resp (some st'))
    (hstored : ∀ st, stored = some st → StepInv st) :
    StepInv st' := by
  cases stored with
  | none =>
    unfold run_agent at hrun
    dsimp only at hrun
    split at hrun
    · split at hrun
      · cases hrun
      · cases hrun
    · cases hrun with
      | refl =>
        apply graph_invoke_inv
        exact ⟨by simp [initial_input], by simp [initial_input]⟩
  | some st =>
    have hInv := hstored st rfl
    unfold run_agent at hrun
    dsimp only at hrun
    split at hrun
    · split at hrun
      · cases hrun with
        | refl => exact hInv
      · cases hrun
    · split at hrun
      · cases hrun with
        | refl =>
          apply graph_invoke_inv
          exact ⟨hInv.1, hInv.2⟩
      · cases hrun with
        | refl =>
          apply graph_invoke_inv
          exact ⟨by simp [initial_input], by simp [initial_input]⟩

theorem storeReach_inv {s : Option AgentState} (h : StoreReach s) :
    ∀ st, s = some st → StepInv st := by
  induction h with
  | init => intro st h; cases h
  | step user query session_id o stored resp stored' _ hrun ih =>
    intro st hst
    subst hst
    exact run_agent_inv user query session_id stored o resp st hrun ih

-- ========================================
-- Helper lemmas: concrete reachable stores
-- ========================================

/-- One `general` turn from a fresh session reaches `stGeneralTurn`. -/
theorem reach_general : StoreReach (some stGeneralTurn) :=
  .step "u" "What is the capital of France?" "s" oClassifyGeneral none
    "Paris." (some stGeneralTurn) .init (by decide)

/-- One `explanation` turn from a fresh session reaches the offer state. -/
theorem reach_offer : StoreReach (some stOfferTurn) :=
  .step "u" "How does photosynthesis work?" "s" oOfferTurn none
    "In short, plants make food from light. Want a full lesson?" (some stOfferTurn)
    .init (by decide)

/-- Confirming the offer while `plan_lesson`'s LLM call raises reaches a
lesson state whose plan has a single entry. -/
theorem reach_planfail : StoreReach (some stPlanFailTurn) :=
  .step "u" "yes" "s" oPlanFailTurn (some stOfferTurn)
    "Plants turn light into food. What do you think?" (some stPlanFailTurn)
    reach_offer (by decide)

/-- Answering at the final step while `complete_lesson`'s LLM call raises
reaches a completed-lesson state with stale `feedback`/`last_explanation`. -/
theorem reach_completefail : StoreReach (some stCompleteFailTurn) :=
  .step "u" "An answer about plants." "s" oCompleteFailTurn (some stPlanFailTurn)
    "Great work completing the lesson on photosynthesis! Feel free to ask me anything."
    (some stCompleteFailTurn) reach_planfail (by decide)

-- ========================================
-- Helper lemmas: the repeat fast path and the word caps
-- ========================================

theorem isEmpty_concat_false {α : Type} (l : List α) (a : α) : (l ++ [a]).isEmpty = false := by
  cases l <;> rfl

theorem analyze_repeat_run (o : Oracle) (st : AgentState) (q : String)
    (htopic : st.topic ≠ "") (hexp : st.last_explanation ≠ "")
    (hrep : is_repeat_request q = true) :
    analyze_topic_context o { st with messages := st.messages ++ [.human q] } =
      { st with
          messages := (st.messages ++ [.human q]) ++
            [.ai (pick o.rand repeatAcksFast ++ st.last_explanation)],
          last_action := "repeated" } := by
  have ht : (st.topic == "") = false := beq_eq_false_iff_ne.mpr htopic
  have he : (st.last_explanation == "") = false := beq_eq_false_iff_ne.mpr hexp
  unfold analyze_topic_context analyze_repeat_fast
  dsimp only
  simp only [List.filter_append, List.getLast?_concat, List.filter_cons, List.filter_nil,
    Message.isHuman, Message.isAi, Message.content, Option.map_some', Option.getD_some,
    isEmpty_concat_false, ht, he, hrep, Bool.false_or, cond_true, cond_false,
    Bool.false_eq_true, if_true, if_false, ite_false, ite_true]

theorem graph_invoke_repeat (o : Oracle) (st : AgentState) (q : String)
    (hmode : st.mode = "explanation") (htopic : st.topic ≠ "")
    (hplan : st.lesson_plan ≠ []) (hawait : st.awaiting_lesson_confirmation = false)
    (hexp : st.last_explanation ≠ "") (hrep : is_repeat_request q = true) :
    graph_invoke o { st with messages := st.messages ++ [.human q] } =
      { st with
          messages := (st.messages ++ [.human q]) ++
            [.ai (pick o.rand repeatAcksFast ++ st.last_explanation)],
          last_action := "repeated" } := by
  have hroute : route_start { st with messages := st.messages ++ [.human q] } =
      "analyze_topic" := by
    unfold route_start
    simp [hawait, hmode, htopic, hplan, List.isEmpty_iff]
  have hana := analyze_repeat_run o st q htopic hexp hrep
  have hrta : route_after_topic_analysis
      { st with
          messages := (st.messages ++ [.human q]) ++
            [.ai (pick o.rand repeatAcksFast ++ st.last_explanation)],
          last_action := "repeated" } = "end" := by
    unfold route_after_topic_analysis
    simp
  unfold graph_invoke
  dsimp only
  rw [hroute]
  rw [if_neg (by decide), if_pos (by decide)]
  rw [hana, hrta]
  rw [if_neg (by decide), if_neg (by decide)]

theorem run_agent_repeat (o : Oracle) (st : AgentState) (user q sid : String)
    (hmode : st.mode = "explanation") (htopic : st.topic ≠ "")
    (hplan : st.lesson_plan ≠ []) (hawait : st.awaiting_lesson_confirmation = false)
    (hexp : st.last_explanation ≠ "") (hrep : is_repeat_request q = true) :
    run_agent user q sid (some st) o =
      .ok (pick o.rand repeatAcksFast ++ st.last_explanation)
        (some { st with
                  query := q, user := user,
                  messages := st.messages ++
                    [.human q, .ai (pick o.rand repeatAcksFast ++ st.last_explanation)],
                  last_action := "repeated" }) := by
  have ht : (st.topic != "") = true := bne_iff_ne.mpr htopic
  have hG := graph_invoke_repeat o
    { st with query := q, user := user } q hmode htopic hplan hawait hexp hrep
  dsimp only at hG
  unfold run_agent
  dsimp only
  rw [ht]
  simp only [Bool.not_true, Bool.false_and, Bool.false_eq_true, if_false, Option.isSome_some,
    Bool.true_and, Bool.true_or, if_true, ite_true, ite_false]
  rw [hG]
  simp only [List.filter_append, List.filter_cons, List.filter_nil, Message.isAi,
    List.getLast?_concat, cond_true, cond_false, Option.map_some', Option.getD_some,
    Message.content]
  simp [List.append_assoc, Message.content]

theorem isPySpace_asciiLower (c : Char) : isPySpace (asciiLower c) = isPySpace c := by
  unfold asciiLower
  split
  · rename_i h
    have hval : (c.toNat + 32).isValidChar := Or.inl (by omega)
    have htn : (Char.ofNat (c.toNat + 32)).toNat = c.toNat + 32 := by
      show (Char.ofNat (c.toNat + 32)).val.toNat = c.toNat + 32
      unfold Char.ofNat
      rw [dif_pos hval]
      exact BitVec.toNat_ofNatLt _ _
    unfold isPySpace
    rw [htn]
    have hl : ((c.toNat + 32 == 32 || c.toNat + 32 == 9 || c.toNat + 32 == 10 ||
        c.toNat + 32 == 13 || c.toNat + 32 == 11 || c.toNat + 32 == 12)) = false := by
      simp only [Bool.or_eq_false_iff, beq_eq_false_iff_ne, ne_eq]
      omega
    have hr : ((c.toNat == 32 || c.toNat == 9 || c.toNat == 10 ||
        c.toNat == 13 || c.toNat == 11 || c.toNat == 12)) = false := by
      simp only [Bool.or_eq_false_iff, beq_eq_false_iff_ne, ne_eq]
      omega
    rw [hl, hr]
  · rfl

theorem pyWordsGo_map_asciiLower (l acc : List Char) :
    pyWordsGo (acc.map asciiLower) (l.map asciiLower) =
      (pyWordsGo acc l).map (List.map asciiLower) := by
  induction l generalizing acc with
  | nil =>
    cases acc <;> simp [pyWordsGo]
  | cons c rest ih =>
    simp only [List.map_cons, pyWordsGo, isPySpace_asciiLower]
    by_cases hsp : isPySpace c
    · cases acc with
      | nil => simpa [hsp] using ih []
      | cons a as =>
        simp only [hsp, if_true, List.isEmpty_cons, List.map_cons]
        simpa [pyWordsGo, hsp] using ih []
    · simpa [pyWordsGo, hsp] using ih (c :: acc)

theorem pyWords_norm_length (q : String) :
    (pyWords (normQuery q)).length = (pyWords (pyStrip q.data)).length := by
  unfold normQuery pyWords
  have h := pyWordsGo_map_asciiLower (pyStrip q.data) []
  simp only [List.map_nil] at h
  rw [h, List.length_map]

-- ========================================
-- Claim theorems
-- ========================================

/-- C1: in every session state reachable by engine traversals, `lesson_step`
lies in `[0, len(lesson_plan) + 1]`; and whenever `lesson_step` exceeds
`len(lesson_plan)` after `evaluate_response`, the traversal's next edge is
`complete_lesson`, which (on both its branches, for any oracle) resets `mode`
to `"general"` and `lesson_step` to `0`. -/
theorem claim_C1 (s : Option AgentState) (hs : StoreReach s) (st : AgentState)
    (h : s = some st) :
    (0 ≤ st.lesson_step ∧ st.lesson_step ≤ st.lesson_plan.length + 1) ∧
    ∀ (stPre : AgentState) (o o' : Oracle),
      (evaluate_response o stPre).lesson_plan.length <
          (evaluate_response o stPre).lesson_step →
      route_after_evaluation (evaluate_response o stPre) = "complete_lesson" ∧
      (complete_lesson o' (evaluate_response o stPre)).mode = "general" ∧
      (complete_lesson o' (evaluate_response o stPre)).lesson_step = 0 := by
  obtain ⟨h1, h2⟩ := storeReach_inv hs st h
  refine ⟨⟨Nat.zero_le _, by omega⟩, ?_⟩
  intro stPre o o' hgt
  refine ⟨?_, (complete_lesson_fields o' _).2.2, (complete_lesson_fields o' _).2.1⟩
  unfold route_after_evaluation
  rw [if_pos hgt]

/-- Witness for C1: `stGeneralTurn` is a concretely reachable store obeying
the bound, and on the concrete reachable lesson state `stPlanFailTurn` the
evaluator pushes `lesson_step` past the plan length, routing to
`complete_lesson` and resetting. -/
theorem claim_C1_witness :
    StoreReach (some stGeneralTurn) ∧
    (0 ≤ stGeneralTurn.lesson_step ∧
      stGeneralTurn.lesson_step ≤ stGeneralTurn.lesson_plan.length + 1) ∧
    route_after_evaluation (evaluate_response oCompleteFailTurn stPlanFailTurn) =
      "complete_lesson" ∧
    (complete_lesson oAllRaised (evaluate_response oCompleteFailTurn stPlanFailTurn)).mode =
      "general" ∧
    (complete_lesson oAllRaised
      (evaluate_response oCompleteFailTurn stPlanFailTurn)).lesson_step = 0 := by
  have hmain := claim_C1 (some stGeneralTurn) reach_general stGeneralTurn rfl
  have happ := hmain.2 stPlanFailTurn oCompleteFailTurn oAllRaised (by decide)
  exact ⟨reach_general, hmain.1, happ.1, happ.2.1, happ.2.2⟩

/-- C2: whenever `evaluate_response` has a user message to grade, every
oracle outcome — graded result, empty structured result, raised error —
advances `lesson_step` by exactly one and sets `last_action = "proceed"`;
the follow-up edge can only be `generate_explanation` (at the advanced step)
or `complete_lesson`, never a re-explanation of the same sub-topic. -/
theorem claim_C2 (st : AgentState) (o : Oracle)
    (h : (st.messages.filter Message.isHuman).isEmpty = false) :
    (evaluate_response o st).lesson_step = st.lesson_step + 1 ∧
    (evaluate_response o st).last_action = "proceed" ∧
    (route_after_evaluation (evaluate_response o st) = "generate_explanation" ∨
     route_after_evaluation (evaluate_response o st) = "complete_lesson") := by
  have hroute : ∀ s : AgentState, route_after_evaluation s = "generate_explanation" ∨
      route_after_evaluation s = "complete_lesson" := by
    intro s
    unfold route_after_evaluation
    split
    · exact Or.inr rfl
    · exact Or.inl rfl
  unfold evaluate_response
  dsimp only
  rw [h]
  simp only [Bool.false_eq_true, if_false, ite_false]
  cases o.evalRes <;> exact ⟨rfl, rfl, hroute _⟩

/-- Witness for C2 at a concrete state with one user message and a raising
oracle. -/
theorem claim_C2_witness :
    (stOneUserMsg.messages.filter Message.isHuman).isEmpty = false ∧
    (evaluate_response oAllRaised stOneUserMsg).lesson_step = stOneUserMsg.lesson_step + 1 ∧
    (evaluate_response oAllRaised stOneUserMsg).last_action = "proceed" := by
  have h := claim_C2 stOneUserMsg oAllRaised (by decide)
  exact ⟨by decide, h.1, h.2.1⟩

/-- C3: when the LLM port raises or returns no tool call during
`plan_lesson`, the resulting state still has a non-empty `lesson_plan`,
`lesson_step = 1`, `mode = "explanation"`, and the same `last_action`
(`"planned"`) that every oracle outcome produces, so the unconditional
`plan_lesson → generate_explanation` edge proceeds identically. -/
theorem claim_C3 (st : AgentState) (o : Oracle)
    (h : o.planRes = .raised ∨ o.planRes = .noToolCall) :
    (plan_lesson o st).lesson_plan ≠ [] ∧
    (plan_lesson o st).lesson_step = 1 ∧
    (plan_lesson o st).mode = "explanation" ∧
    (plan_lesson o st).last_action = "planned" ∧
    ∀ o' : Oracle, (plan_lesson o' st).last_action = "planned" := by
  have hall : ∀ o' : Oracle, (plan_lesson o' st).last_action = "planned" := by
    intro o'
    unfold plan_lesson
    cases o'.planRes <;> rfl
  rcases h with h | h <;>
  · unfold plan_lesson
    rw [h]
    exact ⟨by simp, rfl, rfl, rfl, hall⟩

/-- Witness for C3 with a raising oracle at a concrete state. -/
theorem claim_C3_witness :
    (oAllRaised.planRes = .raised ∨ oAllRaised.planRes = .noToolCall) ∧
    (plan_lesson oAllRaised stOneUserMsg).lesson_plan ≠ [] ∧
    (plan_lesson oAllRaised stOneUserMsg).lesson_step = 1 ∧
    (plan_lesson oAllRaised stOneUserMsg).mode = "explanation" ∧
    (plan_lesson oAllRaised stOneUserMsg).last_action = "planned" := by
  have h := claim_C3 stOneUserMsg oAllRaised (Or.inl rfl)
  exact ⟨Or.inl rfl, h.1, h.2.1, h.2.2.1, h.2.2.2.1⟩

/-- C4 is violated by the code: `stCompleteFailTurn` is reachable (three
concrete turns, the last one completing the lesson through
`complete_lesson`'s raised-error branch), has no active lesson
(`mode = "general"`, empty `topic` and `lesson_plan`), yet `feedback` and
`last_explanation` are not cleared. -/
theorem claim_C4_bug :
    StoreReach (some stCompleteFailTurn) ∧
    stCompleteFailTurn.mode = "general" ∧
    stCompleteFailTurn.topic = "" ∧
    stCompleteFailTurn.lesson_plan = [] ∧
    stCompleteFailTurn.feedback = "Good try!" ∧
    stCompleteFailTurn.last_explanation ≠ "" :=
  ⟨reach_completefail, rfl, rfl, rfl, rfl, by decide⟩

/-- C5 as stated is false: the whole-utterance anchor of `YES_PATTERNS`
rejects the comma in "sure, let's do it". -/
theorem claim_C5_counterexample : is_yes "sure, let's do it" = false := by decide

/-- C5 amended: the classifier values on the claim's inputs, with
`is_yes "sure, let's do it"` corrected to `false`. -/
theorem claim_C5_amended :
    is_yes "yes" = true ∧
    is_yes "sure, let's do it" = false ∧
    is_yes "no thanks" = false ∧
    is_no "no thanks" = true ∧
    is_no "yes" = false := by
  refine ⟨by decide, by decide, by decide, by decide, by decide⟩

/-- C6 as stated is false: the reachable state `stPlanFailTurn` (whose
`plan_lesson` call raised) holds a one-entry `lesson_plan`, neither empty
nor of 3–5 entries. -/
theorem claim_C6_counterexample :
    StoreReach (some stPlanFailTurn) ∧
    ¬(stPlanFailTurn.lesson_plan = [] ∨
      (3 ≤ stPlanFailTurn.lesson_plan.length ∧ stPlanFailTurn.lesson_plan.length ≤ 5)) :=
  ⟨reach_planfail, by decide⟩

/-- C6 amended: in every reachable session state, `lesson_plan` is either
empty or holds between 1 and 5 entries (the raised-error fallback of
`plan_lesson` produces a single entry; the other branches produce 3–5). -/
theorem claim_C6_amended (s : Option AgentState) (hs : StoreReach s) (st : AgentState)
    (h : s = some st) :
    st.lesson_plan = [] ∨
    (1 ≤ st.lesson_plan.length ∧ st.lesson_plan.length ≤ 5) := by
  obtain ⟨h1, h2⟩ := storeReach_inv hs st h
  cases hp : st.lesson_plan with
  | nil => exact Or.inl rfl
  | cons a l => exact Or.inr ⟨by simp, by rw [← hp]; exact h2⟩

/-- Witness for the amended C6 at the concrete reachable store. -/
theorem claim_C6_witness :
    StoreReach (some stPlanFailTurn) ∧
    (stPlanFailTurn.lesson_plan = [] ∨
      (1 ≤ stPlanFailTurn.lesson_plan.length ∧ stPlanFailTurn.lesson_plan.length ≤ 5)) :=
  ⟨reach_planfail, claim_C6_amended (some stPlanFailTurn) reach_planfail stPlanFailTurn rfl⟩

/-- C7: mid-lesson, when the new utterance matches `is_repeat_request` and
`last_explanation` is non-empty, the turn ends with `last_action =
"repeated"`, the appended assistant message is `last_explanation` prefixed
by one of the acknowledgement phrases, `lesson_step`/`topic`/`lesson_plan`
are untouched (the persisted state only changes `query`, `user`, `messages`
and `last_action`), and no model call is made: any oracle with the same
random index produces the identical turn. -/
theorem claim_C7 (st : AgentState) (o o' : Oracle) (user q sid : String)
    (hmode : st.mode = "explanation") (htopic : st.topic ≠ "")
    (hplan : st.lesson_plan ≠ []) (hawait : st.awaiting_lesson_confirmation = false)
    (hexp : st.last_explanation ≠ "") (hrep : is_repeat_request q = true)
    (hrand : o'.rand = o.rand) :
    run_agent user q sid (some st) o =
      .ok (pick o.rand repeatAcksFast ++ st.last_explanation)
        (some { st with
                  query := q, user := user,
                  messages := st.messages ++
                    [.human q, .ai (pick o.rand repeatAcksFast ++ st.last_explanation)],
                  last_action := "repeated" }) ∧
    pick o.rand repeatAcksFast ∈ repeatAcksFast ∧
    run_agent user q sid (some st) o' = run_agent user q sid (some st) o := by
  have h1 := run_agent_repeat o st user q sid hmode htopic hplan hawait hexp hrep
  have h2 := run_agent_repeat o' st user q sid hmode htopic hplan hawait hexp hrep
  refine ⟨h1, ?_, ?_⟩
  · have hx : o.rand % 3 = 0 ∨ o.rand % 3 = 1 ∨ o.rand % 3 = 2 := by omega
    unfold pick
    rcases hx with h | h | h <;> rw [show repeatAcksFast.length = 3 from rfl, h] <;> decide
  · rw [h1, h2, hrand]

/-- Witness for C7: scenario C of the spec (plan length 4, `lesson_step =
2`, query "can you repeat that") with two oracles differing in every LLM
answer. -/
theorem claim_C7_witness :
    (stMidLesson.mode = "explanation" ∧ stMidLesson.topic ≠ "" ∧
     stMidLesson.lesson_plan ≠ [] ∧ stMidLesson.awaiting_lesson_confirmation = false ∧
     stMidLesson.last_explanation ≠ "" ∧ is_repeat_request "can you repeat that" = true) ∧
    run_agent "u" "can you repeat that" "s" (some stMidLesson) oAllRaised =
      .ok (pick oAllRaised.rand repeatAcksFast ++ stMidLesson.last_explanation)
        (some { stMidLesson with
                  query := "can you repeat that", user := "u",
                  messages := stMidLesson.messages ++
                    [.human "can you repeat that",
                     .ai (pick oAllRaised.rand repeatAcksFast ++ stMidLesson.last_explanation)],
                  last_action := "repeated" }) ∧
    run_agent "u" "can you repeat that" "s" (some stMidLesson) oOtherLLM =
      run_agent "u" "can you repeat that" "s" (some stMidLesson) oAllRaised := by
  have h := claim_C7 stMidLesson oAllRaised oOtherLLM "u" "can you repeat that" "s"
    rfl (by decide) (by decide) rfl (by decide) (by decide) rfl
  exact ⟨⟨rfl, by decide, by decide, rfl, by decide, by decide⟩, h.1, h.2.2⟩

/-- C8: with no active lesson, no pending confirmation, and a small-talk
query, `run_agent` returns the single free-form small-talk call's text and
leaves the persisted store exactly as it was — no graph traversal, no
message appended, no field mutated, no save. -/
theorem claim_C8 (user query session_id : String) (stored : Option AgentState)
    (o : Oracle) (t : String)
    (hno : ∀ st, stored = some st → st.topic = "" ∧ st.awaiting_lesson_confirmation = false)
    (hsmall : is_small_talk query = true) (hok : o.smallTalkRes = .ok t) :
    run_agent user query session_id stored o = .ok t stored := by
  unfold run_agent handle_small_talk
  cases stored with
  | none =>
    dsimp only
    simp only [hsmall, Bool.not_false, Bool.and_true, Bool.true_and, if_true, ite_true]
    rw [hok]
  | some st =>
    obtain ⟨h1, h2⟩ := hno st rfl
    dsimp only
    simp only [h1, h2, hsmall, bne_self_eq_false, Bool.not_false, Bool.and_true,
      Bool.true_and, if_true, ite_true]
    rw [hok]

/-- Witness for C8: a fresh session, query "hello", small-talk oracle. -/
theorem claim_C8_witness :
    is_small_talk "hello" = true ∧
    oSmallOk.smallTalkRes = .ok "Hi there!" ∧
    run_agent "u" "hello" "s" none oSmallOk = .ok "Hi there!" none :=
  ⟨by decide, rfl,
    claim_C8 "u" "hello" "s" none oSmallOk "Hi there!" (fun _ h => by cases h) (by decide) rfl⟩

/-- C9: utterances whose trimmed form has more than 10 words are never small
talk and more than 15 words are never repeat requests; both classifiers are
total Lean functions, and each returns `false` on any input no pattern of
its rule set matches. -/
theorem claim_C9 (q : String) :
    (10 < (pyWords (pyStrip q.data)).length → is_small_talk q = false) ∧
    (15 < (pyWords (pyStrip q.data)).length → is_repeat_request q = false) ∧
    ((∀ p ∈ SMALL_TALK_PATTERNS, research p (normQuery q) = false) →
      is_small_talk q = false) ∧
    ((∀ p ∈ REPEAT_REQUEST_PATTERNS, research p (normQuery q) = false) →
      is_repeat_request q = false) := by
  refine ⟨?_, ?_, ?_, ?_⟩
  · intro h
    unfold is_small_talk
    rw [if_neg]
    rw [pyWords_norm_length]
    omega
  · intro h
    unfold is_repeat_request
    rw [if_neg]
    rw [pyWords_norm_length]
    omega
  · intro h
    unfold is_small_talk
    dsimp only
    split
    · rw [List.any_eq_false]
      intro p hp
      simp [h p hp]
    · rfl
  · intro h
    unfold is_repeat_request
    dsimp only
    split
    · rw [List.any_eq_false]
      intro p hp
      simp [h p hp]
    · rfl

/-- Witness for C9: an 11-word and a 16-word utterance. -/
theorem claim_C9_witness :
    (10 < (pyWords (pyStrip ("a b c d e f g h i j k" : String).data)).length) ∧
    is_small_talk "a b c d e f g h i j k" = false ∧
    (15 < (pyWords (pyStrip ("a b c d e f g h i j k l m n o p" : String).data)).length) ∧
    is_repeat_request "a b c d e f g h i j k l m n o p" = false :=
  ⟨by decide, (claim_C9 "a b c d e f g h i j k").1 (by decide),
   by decide, (claim_C9 "a b c d e f g h i j k l m n o p").2.1 (by decide)⟩

/-- C10 is violated by the code on empty (or all-whitespace) input: the
function's own contract promises every returned sentence non-empty, yet
`split_into_sentences ""` evaluates to `[""]`, a one-element list whose
element is empty (the second part of the claim — one element equal to the
stripped input when no sentence-ending punctuation is followed by
whitespace — is what the fallback produces here). -/
theorem claim_C10_bug :
    split_into_sentences "" = [""] ∧ "" ∈ split_into_sentences "" := by
  refine ⟨by decide, by decide⟩

end TutorAgent
